import Mathlib

/-!
Shallow embedding of `src/services/ai.py` (alenacrm): the `AIService`
intent classifier and the four structured extractors
(`parse_supply`, `parse_sale`, `parse_client_edit`, `parse_preorder`).

Each Python function wraps one call to an external NLU service in
`try: ... except Exception: return None` / `return "supply"`.  The
observable behaviour of each function is therefore a pure function of
the service call's outcome, which we model as `SvcResp`:
  * the call raised an exception (`exn`),
  * the call returned content that `json.loads` cannot parse
    (`content none`),
  * the call returned content parsing to a JSON value
    (`content (some j)`).
The pydantic model constructors (`SupplyData(**result)` etc.) are
translated field by field into `Option`-returning validators; a pydantic
`ValidationError` is `none`.  JSON numbers keep Python's `int`/`float`
distinction produced by `json.loads` (`jint` vs `jfloat`, floats as
rationals); pydantic v2's lax coercion of numeric *strings* to numbers is
not modelled (no claim depends on it).  Python dicts keep the last of
duplicate keys, hence `getField` searches the reversed field list.
`str.strip()`/`str.lower()` are modelled over the ASCII whitespace and
letter ranges, which covers the five ASCII intent labels.
-/

/-- A JSON value as produced by Python's `json.loads`. -/
inductive JValue where
  | jnull : JValue
  | jbool : Bool → JValue
  | jint : Int → JValue
  | jfloat : Rat → JValue
  | jstr : String → JValue
  | jarr : List JValue → JValue
  | jobj : List (String × JValue) → JValue

/-- Outcome of one NLU service call as seen by the `try:` body:
the awaited call raised, or returned content that `json.loads` either
fails on (`content none`) or parses (`content (some j)`). -/
inductive SvcResp where
  | exn : SvcResp
  | content : Option JValue → SvcResp

/-- Exception sources inside a `try:` body: the awaited service call,
`json.loads`, or the pydantic model constructor. Every one of them is
caught by the body's `except Exception` clause. -/
inductive PyErr where
  | svc : PyErr
  | jsonDecode : PyErr
  | validation : PyErr
deriving DecidableEq, Repr

/-- Dict lookup as Python builds it from JSON: a later duplicate key
overwrites an earlier one. -/
def getField (fields : List (String × JValue)) (k : String) : Option JValue :=
  (fields.reverse.find? (fun p => p.1 == k)).map Prod.snd

/-- pydantic `str` field: accepts exactly a JSON string. -/
def vStr : JValue → Option String
  | JValue.jstr s => some s
  | _ => none

/-- pydantic `int` field: accepts exactly a JSON integer. -/
def vInt : JValue → Option Int
  | JValue.jint n => some n
  | _ => none

/-- pydantic `float` field: accepts a JSON integer or float. -/
def vFloat : JValue → Option Rat
  | JValue.jint n => some (n : Rat)
  | JValue.jfloat q => some q
  | _ => none

/-- pydantic `Optional[str] = None` field: absent or `null` gives `None`. -/
def vOptStr : Option JValue → Option (Option String)
  | none => some none
  | some JValue.jnull => some none
  | some (JValue.jstr s) => some (some s)
  | some _ => none

/-- pydantic `float = Field(default=0)` field: an absent key yields the
default `0`; a present value must be numeric. -/
def vFloatDefault : Option JValue → Option Rat
  | none => some 0
  | some v => vFloat v

/-- pydantic `List[...]` field: a JSON array each of whose elements
validates. -/
def vList (f : JValue → Option α) : JValue → Option (List α)
  | JValue.jarr xs => xs.mapM f
  | _ => none

-- ------------------------------------------------------------------
-- Pydantic models (src/services/ai.py lines 19-81), field for field.
-- ------------------------------------------------------------------

/-- `ClientEditData`: client_name, notes — both required strings. -/
structure ClientEditData where
  client_name : String
  notes : String
deriving DecidableEq, Repr

/-- `SupplyItem`: name, size, quantity (`gt=0`), price (default 0),
purchase_price (default 0). No lower bound is declared on the prices. -/
structure SupplyItem where
  name : String
  size : String
  quantity : Int
  price : Rat
  purchase_price : Rat
deriving DecidableEq, Repr

/-- `SupplyData`: a list of `SupplyItem` (no non-emptiness constraint). -/
structure SupplyData where
  items : List SupplyItem
deriving DecidableEq, Repr

/-- `ClientInfo`: required `name` string (no non-emptiness constraint),
optional instagram/telegram/notes defaulting to `None`. -/
structure ClientInfo where
  name : String
  instagram : Option String
  telegram : Option String
  notes : Option String
deriving DecidableEq, Repr

/-- `SaleInfo`: item_name, size, quantity (`gt=0`), price (`gt=0`). -/
structure SaleInfo where
  item_name : String
  size : String
  quantity : Int
  price : Rat
deriving DecidableEq, Repr

/-- `ReminderInfo`: days_from_now, text. -/
structure ReminderInfo where
  days_from_now : Int
  text : String
deriving DecidableEq, Repr

/-- `SaleData`: client, items, optional reminder (default `None`). -/
structure SaleData where
  client : ClientInfo
  items : List SaleInfo
  reminder : Option ReminderInfo
deriving DecidableEq, Repr

/-- `PreorderItem`: item_name, quantity (`gt=0`), optional description. -/
structure PreorderItem where
  item_name : String
  quantity : Int
  description : Option String
deriving DecidableEq, Repr

/-- `PreorderData`: client_name (required string, no non-emptiness
constraint), items (no non-emptiness constraint), optional notes. -/
structure PreorderData where
  client_name : String
  items : List PreorderItem
  notes : Option String
deriving DecidableEq, Repr

-- ------------------------------------------------------------------
-- Validators: `Model(**result)` for each pydantic model.
-- ------------------------------------------------------------------

/-- `SupplyItem(**d)`: `quantity` must satisfy `gt=0`; `price` and
`purchase_price` default to `0` when the key is absent. -/
def validateSupplyItem : JValue → Option SupplyItem
  | JValue.jobj fs => do
    let name ← (getField fs "name").bind vStr
    let size ← (getField fs "size").bind vStr
    let quantity ← (getField fs "quantity").bind vInt
    guard (0 < quantity)
    let price ← vFloatDefault (getField fs "price")
    let purchase_price ← vFloatDefault (getField fs "purchase_price")
    pure ⟨name, size, quantity, price, purchase_price⟩
  | _ => none

/-- `SupplyData(**result)`: requires the `items` key, a list each of whose
elements validates as a `SupplyItem`. An empty list validates. -/
def validateSupplyData : JValue → Option SupplyData
  | JValue.jobj fs => do
    let itemsJ ← getField fs "items"
    let items ← vList validateSupplyItem itemsJ
    pure ⟨items⟩
  | _ => none

/-- `ClientInfo(**d)`: required `name` string; the three optional fields
default to `None` when absent or `null`. -/
def validateClientInfo : JValue → Option ClientInfo
  | JValue.jobj fs => do
    let name ← (getField fs "name").bind vStr
    let instagram ← vOptStr (getField fs "instagram")
    let telegram ← vOptStr (getField fs "telegram")
    let notes ← vOptStr (getField fs "notes")
    pure ⟨name, instagram, telegram, notes⟩
  | _ => none

/-- `SaleInfo(**d)`: `quantity` and `price` both carry `gt=0`;
`price` has no default, so an absent price key fails validation. -/
def validateSaleInfo : JValue → Option SaleInfo
  | JValue.jobj fs => do
    let item_name ← (getField fs "item_name").bind vStr
    let size ← (getField fs "size").bind vStr
    let quantity ← (getField fs "quantity").bind vInt
    guard (0 < quantity)
    let price ← (getField fs "price").bind vFloat
    guard (0 < price)
    pure ⟨item_name, size, quantity, price⟩
  | _ => none

/-- `ReminderInfo(**d)`: required integer `days_from_now` and string
`text`. -/
def validateReminderInfo : JValue → Option ReminderInfo
  | JValue.jobj fs => do
    let days_from_now ← (getField fs "days_from_now").bind vInt
    let text ← (getField fs "text").bind vStr
    pure ⟨days_from_now, text⟩
  | _ => none

/-- pydantic `Optional[ReminderInfo] = None` field: absent or `null`
gives `None`; a present object must validate as `ReminderInfo`. -/
def vOptReminder : Option JValue → Option (Option ReminderInfo)
  | none => some none
  | some JValue.jnull => some none
  | some rj => (validateReminderInfo rj).map some

/-- `SaleData(**result)`: required `client` and `items`; `reminder`
defaults to `None` when absent or `null`. -/
def validateSaleData : JValue → Option SaleData
  | JValue.jobj fs => do
    let clientJ ← getField fs "client"
    let client ← validateClientInfo clientJ
    let itemsJ ← getField fs "items"
    let items ← vList validateSaleInfo itemsJ
    let reminder ← vOptReminder (getField fs "reminder")
    pure ⟨client, items, reminder⟩
  | _ => none

/-- `ClientEditData(**result)`: both fields required strings. -/
def validateClientEditData : JValue → Option ClientEditData
  | JValue.jobj fs => do
    let client_name ← (getField fs "client_name").bind vStr
    let notes ← (getField fs "notes").bind vStr
    pure ⟨client_name, notes⟩
  | _ => none

/-- `PreorderItem(**d)`: `quantity` carries `gt=0`; `description` is
optional. -/
def validatePreorderItem : JValue → Option PreorderItem
  | JValue.jobj fs => do
    let item_name ← (getField fs "item_name").bind vStr
    let quantity ← (getField fs "quantity").bind vInt
    guard (0 < quantity)
    let description ← vOptStr (getField fs "description")
    pure ⟨item_name, quantity, description⟩
  | _ => none

/-- `PreorderData(**result)`: required `client_name` string and `items`
list (an empty list validates); `notes` optional. -/
def validatePreorderData : JValue → Option PreorderData
  | JValue.jobj fs => do
    let client_name ← (getField fs "client_name").bind vStr
    let itemsJ ← getField fs "items"
    let items ← vList validatePreorderItem itemsJ
    let notes ← vOptStr (getField fs "notes")
    pure ⟨client_name, items, notes⟩
  | _ => none

-- ------------------------------------------------------------------
-- String normalization used by classify_message (`.strip().lower()`).
-- ------------------------------------------------------------------

/-- Python `str.strip()` whitespace, ASCII range: space, \t, \n, \r,
vertical tab, form feed. -/
def isPySpace (c : Char) : Bool :=
  decide (c.toNat = 32 ∨ c.toNat = 9 ∨ c.toNat = 10 ∨ c.toNat = 13 ∨
    c.toNat = 11 ∨ c.toNat = 12)

/-- Python `str.lower()` on the ASCII letters: `A`..`Z` map to
`a`..`z`, every other character is unchanged. -/
def asciiLower (c : Char) : Char :=
  if 65 ≤ c.toNat ∧ c.toNat ≤ 90 then Char.ofNat (c.toNat + 32) else c

/-- `str.strip()` on the character list: drop leading and trailing
whitespace. -/
def pyStripL (l : List Char) : List Char :=
  ((l.dropWhile isPySpace).reverse.dropWhile isPySpace).reverse

/-- `str.strip()`. -/
def pyStrip (s : String) : String := ⟨pyStripL s.data⟩

/-- `str.lower()` (ASCII model). -/
def pyLower (s : String) : String := ⟨s.data.map asciiLower⟩

/-- The five labels accepted by `classify_message` (line 154). -/
def intentLabels : List String :=
  ["supply", "sale", "preorder", "client_edit", "query"]

-- ------------------------------------------------------------------
-- The AIService functions.
-- ------------------------------------------------------------------

/-- `AIService.classify_message` (lines 114-158) as a function of the
service call's outcome: `none` models a raised exception (the `except`
clause returns `"supply"`), `some s` models a reply with content `s`,
which is stripped, lowercased, and tested for membership in the five
labels; anything else falls back to `"supply"`. -/
def classify_message : Option String → String
  | none => "supply"
  | some s =>
    let classification := pyLower (pyStrip s)
    if intentLabels.contains classification then classification else "supply"

/-- `try:` body of `parse_supply` (lines 172-258): service call, then
`json.loads`, then `SupplyData(**result)`; each failure raises. -/
def supplyBody : SvcResp → Except PyErr SupplyData
  | SvcResp.exn => Except.error PyErr.svc
  | SvcResp.content none => Except.error PyErr.jsonDecode
  | SvcResp.content (some j) =>
    match validateSupplyData j with
    | none => Except.error PyErr.validation
    | some d => Except.ok d

/-- `AIService.parse_supply` (lines 160-262): the body wrapped in
`except Exception: return None`. -/
def parse_supply (resp : SvcResp) : Option SupplyData :=
  match supplyBody resp with
  | Except.ok d => some d
  | Except.error _ => none

/-- `try:` body of `parse_sale` (lines 277-424). -/
def saleBody : SvcResp → Except PyErr SaleData
  | SvcResp.exn => Except.error PyErr.svc
  | SvcResp.content none => Except.error PyErr.jsonDecode
  | SvcResp.content (some j) =>
    match validateSaleData j with
    | none => Except.error PyErr.validation
    | some d => Except.ok d

/-- `AIService.parse_sale` (lines 264-428). -/
def parse_sale (resp : SvcResp) : Option SaleData :=
  match saleBody resp with
  | Except.ok d => some d
  | Except.error _ => none

/-- `try:` body of `parse_client_edit` (lines 441-484). -/
def clientEditBody : SvcResp → Except PyErr ClientEditData
  | SvcResp.exn => Except.error PyErr.svc
  | SvcResp.content none => Except.error PyErr.jsonDecode
  | SvcResp.content (some j) =>
    match validateClientEditData j with
    | none => Except.error PyErr.validation
    | some d => Except.ok d

/-- `AIService.parse_client_edit` (lines 430-488). -/
def parse_client_edit (resp : SvcResp) : Option ClientEditData :=
  match clientEditBody resp with
  | Except.ok d => some d
  | Except.error _ => none

/-- `try:` body of `parse_preorder` (lines 501-578). -/
def preorderBody : SvcResp → Except PyErr PreorderData
  | SvcResp.exn => Except.error PyErr.svc
  | SvcResp.content none => Except.error PyErr.jsonDecode
  | SvcResp.content (some j) =>
    match validatePreorderData j with
    | none => Except.error PyErr.validation
    | some d => Except.ok d

/-- `AIService.parse_preorder` (lines 490-582). Its Python signature
takes only the utterance text (no vocabulary argument); here the only
input is the service outcome for that text. -/
def parse_preorder (resp : SvcResp) : Option PreorderData :=
  match preorderBody resp with
  | Except.ok d => some d
  | Except.error _ => none

-- Wrappers over an explicit deterministic service, mirroring the Python
-- signatures: the parse result depends only on the arguments and the
-- service's outcome for them.

/-- `parse_supply(text, existing_products)` over a service function. -/
def parse_supply_run (svc : String → List String → SvcResp)
    (text : String) (existing_products : List String) : Option SupplyData :=
  parse_supply (svc text existing_products)

/-- `parse_sale(text, current_date, existing_products)` over a service
function. -/
def parse_sale_run (svc : String → String → List String → SvcResp)
    (text : String) (current_date : String)
    (existing_products : List String) : Option SaleData :=
  parse_sale (svc text current_date existing_products)

/-- `parse_preorder(text)` over a service function. -/
def parse_preorder_run (svc : String → SvcResp) (text : String) :
    Option PreorderData :=
  parse_preorder (svc text)

/-- `parse_client_edit(text)` over a service function. -/
def parse_client_edit_run (svc : String → SvcResp) (text : String) :
    Option ClientEditData :=
  parse_client_edit (svc text)

-- ------------------------------------------------------------------
-- Concrete service responses used by the theorems below.
-- ------------------------------------------------------------------

/-- Supply response whose items list is empty. -/
def supplyEmptyItemsJson : JValue := JValue.jobj [("items", JValue.jarr [])]

/-- Supply line item with all keys and the given quantity. -/
def supplyItemJson (q : Int) : JValue :=
  JValue.jobj [("name", JValue.jstr "Топ"), ("size", JValue.jstr "M"),
    ("quantity", JValue.jint q), ("price", JValue.jint 10),
    ("purchase_price", JValue.jint 5)]

/-- Supply response with one zero-quantity item and one valid item. -/
def supplyZeroQtyJson : JValue :=
  JValue.jobj [("items", JValue.jarr [supplyItemJson 0, supplyItemJson 5])]

/-- Supply response with one valid item. -/
def supplyOkJson : JValue :=
  JValue.jobj [("items", JValue.jarr [supplyItemJson 3])]

/-- Supply response whose item omits both price keys. -/
def supplyNoPriceJson : JValue :=
  JValue.jobj [("items", JValue.jarr [JValue.jobj
    [("name", JValue.jstr "Топ"), ("size", JValue.jstr "M"),
     ("quantity", JValue.jint 2)]])]

/-- Supply response whose item carries negative integer prices. -/
def supplyNegPriceJson : JValue :=
  JValue.jobj [("items", JValue.jarr [JValue.jobj
    [("name", JValue.jstr "Топ"), ("size", JValue.jstr "M"),
     ("quantity", JValue.jint 1), ("price", JValue.jint (-5)),
     ("purchase_price", JValue.jint (-3))]])]

/-- Supply response whose item carries a negative fractional sale price. -/
def supplyNegHalfJson : JValue :=
  JValue.jobj [("items", JValue.jarr [JValue.jobj
    [("name", JValue.jstr "Топ"), ("size", JValue.jstr "M"),
     ("quantity", JValue.jint 1), ("price", JValue.jfloat (mkRat (-1) 2)),
     ("purchase_price", JValue.jint 0)]])]

/-- Client object for "Анна" with all optional fields null. -/
def clientAnnaJson : JValue :=
  JValue.jobj [("name", JValue.jstr "Анна"), ("instagram", JValue.jnull),
    ("telegram", JValue.jnull), ("notes", JValue.jnull)]

/-- Client object with an empty name string. -/
def clientEmptyNameJson : JValue :=
  JValue.jobj [("name", JValue.jstr ""), ("instagram", JValue.jnull),
    ("telegram", JValue.jnull), ("notes", JValue.jnull)]

/-- Client object with no name key at all. -/
def clientNoNameJson : JValue :=
  JValue.jobj [("instagram", JValue.jnull), ("telegram", JValue.jnull),
    ("notes", JValue.jnull)]

/-- Sale line item priced at 40. -/
def saleItem40Json : JValue :=
  JValue.jobj [("item_name", JValue.jstr "Топ"), ("size", JValue.jstr "M"),
    ("quantity", JValue.jint 1), ("price", JValue.jint 40)]

/-- Sale line item with no price key. -/
def saleItemNoPriceJson : JValue :=
  JValue.jobj [("item_name", JValue.jstr "Топ"), ("size", JValue.jstr "M"),
    ("quantity", JValue.jint 1)]

/-- Sale line item with price 0. -/
def saleItemZeroPriceJson : JValue :=
  JValue.jobj [("item_name", JValue.jstr "Топ"), ("size", JValue.jstr "M"),
    ("quantity", JValue.jint 1), ("price", JValue.jint 0)]

/-- Well-formed sale response. -/
def saleOkJson : JValue :=
  JValue.jobj [("client", clientAnnaJson),
    ("items", JValue.jarr [saleItem40Json]), ("reminder", JValue.jnull)]

/-- Sale response whose purchased item has no price key. -/
def saleNoPriceJson : JValue :=
  JValue.jobj [("client", clientAnnaJson),
    ("items", JValue.jarr [saleItemNoPriceJson]), ("reminder", JValue.jnull)]

/-- Sale response whose purchased item has price 0. -/
def saleZeroPriceJson : JValue :=
  JValue.jobj [("client", clientAnnaJson),
    ("items", JValue.jarr [saleItemZeroPriceJson]), ("reminder", JValue.jnull)]

/-- Sale response whose client name is the empty string. -/
def saleEmptyNameJson : JValue :=
  JValue.jobj [("client", clientEmptyNameJson),
    ("items", JValue.jarr [saleItem40Json]), ("reminder", JValue.jnull)]

/-- Sale response whose client object lacks the name key. -/
def saleNoClientNameJson : JValue :=
  JValue.jobj [("client", clientNoNameJson),
    ("items", JValue.jarr [saleItem40Json]), ("reminder", JValue.jnull)]

/-- Preorder response with a client name and an empty items list. -/
def preorderEmptyItemsJson : JValue :=
  JValue.jobj [("client_name", JValue.jstr "Анна"),
    ("items", JValue.jarr []), ("notes", JValue.jnull)]

/-- Preorder response with no client_name key. -/
def preorderNoNameJson : JValue :=
  JValue.jobj [("items", JValue.jarr []), ("notes", JValue.jnull)]

/-- Preorder response whose client name is the empty string. -/
def preorderEmptyNameJson : JValue :=
  JValue.jobj [("client_name", JValue.jstr ""),
    ("items", JValue.jarr [JValue.jobj
      [("item_name", JValue.jstr "Купальник"), ("quantity", JValue.jint 1),
       ("description", JValue.jnull)]]),
    ("notes", JValue.jnull)]

-- ------------------------------------------------------------------
-- Helper lemmas on the string normalization.
-- ------------------------------------------------------------------

/-- Evaluation of `Char.ofNat` on lowercase-letter codes. -/
lemma char_ofNat_toNat_lower (n : Nat) (h1 : 97 ≤ n) (h2 : n ≤ 122) :
    (Char.ofNat n).toNat = n := by
  interval_cases n <;> decide

/-- Lowercasing never changes whether a character is whitespace. -/
lemma isPySpace_asciiLower (c : Char) : isPySpace (asciiLower c) = isPySpace c := by
  unfold asciiLower
  by_cases h : 65 ≤ c.toNat ∧ c.toNat ≤ 90
  · rw [if_pos h]
    have h1 : (Char.ofNat (c.toNat + 32)).toNat = c.toNat + 32 :=
      char_ofNat_toNat_lower _ (by omega) (by omega)
    unfold isPySpace
    rw [Bool.eq_iff_iff]
    simp only [decide_eq_true_eq, h1]
    omega
  · rw [if_neg h]

/-- Dropping whitespace from an all-whitespace left part. -/
lemma dropWhile_append_spaces (l r : List Char)
    (h : ∀ c ∈ l, isPySpace c = true) :
    (l ++ r).dropWhile isPySpace = r.dropWhile isPySpace := by
  induction l with
  | nil => rfl
  | cons a l ih =>
    have ha : isPySpace a = true := h a (List.mem_cons_self a l)
    simp [List.dropWhile_cons, ha,
      ih (fun c hc => h c (List.mem_cons_of_mem a hc))]

/-- dropWhile keeps a list whose head fails the predicate. -/
lemma dropWhile_cons_neg (a : Char) (l : List Char)
    (ha : isPySpace a = false) :
    (a :: l).dropWhile isPySpace = a :: l := by
  simp [List.dropWhile_cons, ha]

/-- Stripping a whitespace-padded list recovers the trimmed core. -/
lemma pyStripL_eq_of_padded (pre t post : List Char)
    (hpre : ∀ c ∈ pre, isPySpace c = true)
    (hpost : ∀ c ∈ post, isPySpace c = true)
    (hhead : ∀ c cs, t = c :: cs → isPySpace c = false)
    (hlast : ∀ c cs, t.reverse = c :: cs → isPySpace c = false)
    (hne : t ≠ []) :
    pyStripL (pre ++ (t ++ post)) = t := by
  obtain ⟨c, cs, rfl⟩ : ∃ c cs, t = c :: cs := by
    cases t with
    | nil => exact absurd rfl hne
    | cons c cs => exact ⟨c, cs, rfl⟩
  unfold pyStripL
  rw [dropWhile_append_spaces pre _ hpre, List.cons_append,
    dropWhile_cons_neg c _ (hhead c cs rfl), ← List.cons_append,
    List.reverse_append,
    dropWhile_append_spaces post.reverse _
      (fun x hx => hpost x (List.mem_reverse.mp hx))]
  obtain ⟨c2, cs2, hrev⟩ : ∃ c2 cs2, (c :: cs).reverse = c2 :: cs2 := by
    cases hr : (c :: cs).reverse with
    | nil => exact absurd (List.reverse_eq_nil_iff.mp hr) (by simp)
    | cons c2 cs2 => exact ⟨c2, cs2, rfl⟩
  rw [hrev, dropWhile_cons_neg c2 _ (hlast c2 cs2 hrev), ← hrev,
    List.reverse_reverse]

/-- String append acts as list append on the character data. -/
lemma str_data_append (a b : String) : (a ++ b).data = a.data ++ b.data := by
  cases a; cases b; rfl

/-- Facts about the five intent labels: nonempty, whitespace-free, and
found by the membership test. -/
lemma label_facts (lab : String) (h : lab ∈ intentLabels) :
    lab.data ≠ [] ∧ (∀ c ∈ lab.data, isPySpace c = false) ∧
      intentLabels.contains lab = true := by
  simp only [intentLabels, List.mem_cons, List.mem_singleton,
    List.not_mem_nil, or_false] at h
  rcases h with rfl | rfl | rfl | rfl | rfl <;>
    exact ⟨by decide, by decide, by decide⟩

-- ------------------------------------------------------------------
-- Invariants enforced by the pydantic validators.
-- ------------------------------------------------------------------

/-- Any sale line item accepted by the validator has positive price. -/
lemma validateSaleInfo_price_pos (j : JValue) (it : SaleInfo)
    (h : validateSaleInfo j = some it) : 0 < it.price := by
  cases j
  case jobj fs =>
    simp only [validateSaleInfo, bind, pure, Option.bind_eq_some,
      Option.guard_eq_some', exists_const, Option.some.injEq] at h
    obtain ⟨a, ha, b, hb, q, hq, hqpos, p, hp, hppos, heq⟩ := h
    rw [← heq]
    exact hppos
  all_goals simp [validateSaleInfo] at h

/-- Any supply line item accepted by the validator has positive
quantity. -/
lemma validateSupplyItem_quantity_pos (j : JValue) (it : SupplyItem)
    (h : validateSupplyItem j = some it) : 0 < it.quantity := by
  cases j
  case jobj fs =>
    simp only [validateSupplyItem, bind, pure, Option.bind_eq_some,
      Option.guard_eq_some', exists_const, Option.some.injEq] at h
    obtain ⟨a, ha, b, hb, q, hq, hqpos, p, hp, pp, hpp, heq⟩ := h
    rw [← heq]
    exact hqpos
  all_goals simp [validateSupplyItem] at h

/-- Positivity of the price across a validated sale item list. -/
lemma mapM_validateSaleInfo_price_pos (xs : List JValue)
    (its : List SaleInfo) (h : xs.mapM validateSaleInfo = some its) :
    ∀ it ∈ its, 0 < it.price := by
  induction xs generalizing its with
  | nil =>
    rw [List.mapM_nil] at h
    cases h
    intro it hit
    exact absurd hit (List.not_mem_nil it)
  | cons x xs ih =>
    rw [List.mapM_cons] at h
    simp only [bind, pure, Option.bind_eq_some, Option.some.injEq] at h
    obtain ⟨y, hy, ys, hys, heq⟩ := h
    intro it hit
    rw [← heq] at hit
    rcases List.mem_cons.mp hit with h1 | h1
    · rw [h1]
      exact validateSaleInfo_price_pos x y hy
    · exact ih ys hys it h1

/-- Positivity of the quantity across a validated supply item list. -/
lemma mapM_validateSupplyItem_quantity_pos (xs : List JValue)
    (its : List SupplyItem) (h : xs.mapM validateSupplyItem = some its) :
    ∀ it ∈ its, 0 < it.quantity := by
  induction xs generalizing its with
  | nil =>
    rw [List.mapM_nil] at h
    cases h
    intro it hit
    exact absurd hit (List.not_mem_nil it)
  | cons x xs ih =>
    rw [List.mapM_cons] at h
    simp only [bind, pure, Option.bind_eq_some, Option.some.injEq] at h
    obtain ⟨y, hy, ys, hys, heq⟩ := h
    intro it hit
    rw [← heq] at hit
    rcases List.mem_cons.mp hit with h1 | h1
    · rw [h1]
      exact validateSupplyItem_quantity_pos x y hy
    · exact ih ys hys it h1

/-- Every item in a validated sale record has positive price. -/
lemma validateSaleData_price_pos (j : JValue) (sd : SaleData)
    (h : validateSaleData j = some sd) : ∀ it ∈ sd.items, 0 < it.price := by
  cases j
  case jobj fs =>
    simp only [validateSaleData, bind, pure, Option.bind_eq_some,
      Option.some.injEq] at h
    obtain ⟨cj, hcj, cl, hcl, ij, hij, items, hitems, rem, hrem, heq⟩ := h
    rw [← heq]
    cases ij
    case jarr xs =>
      simp only [vList] at hitems
      exact mapM_validateSaleInfo_price_pos xs items hitems
    all_goals simp [vList] at hitems
  all_goals simp [validateSaleData] at h

/-- Every item in a validated supply record has positive quantity. -/
lemma validateSupplyData_quantity_pos (j : JValue) (sd : SupplyData)
    (h : validateSupplyData j = some sd) :
    ∀ it ∈ sd.items, 0 < it.quantity := by
  cases j
  case jobj fs =>
    simp only [validateSupplyData, bind, pure, Option.bind_eq_some,
      Option.some.injEq] at h
    obtain ⟨ij, hij, items, hitems, heq⟩ := h
    rw [← heq]
    cases ij
    case jarr xs =>
      simp only [vList] at hitems
      exact mapM_validateSupplyItem_quantity_pos xs items hitems
    all_goals simp [vList] at hitems
  all_goals simp [validateSupplyData] at h

-- ------------------------------------------------------------------
-- Claim theorems.
-- ------------------------------------------------------------------

/-- C1: classify_message always returns one of the five labels; on a
raised service call it returns "supply", and on any reply whose
normalized form is not one of the five labels it returns "supply". -/
theorem classify_message_five_labels (resp : Option String) :
    classify_message resp ∈ intentLabels ∧
    classify_message none = "supply" ∧
    (∀ s, resp = some s → pyLower (pyStrip s) ∉ intentLabels →
      classify_message resp = "supply") := by
  refine ⟨?_, rfl, ?_⟩
  · cases resp with
    | none => decide
    | some s =>
      simp only [classify_message]
      by_cases h : intentLabels.contains (pyLower (pyStrip s)) = true
      · rw [if_pos h]
        exact List.elem_iff.mp h
      · rw [if_neg h]
        decide
  · intro s hs hmem
    subst hs
    simp only [classify_message]
    rw [if_neg (fun hc => hmem (List.elem_iff.mp hc))]

/-- C1 witness: on the reply "banana", which is not a label, the
classifier falls back to "supply". -/
theorem classify_message_five_labels_witness :
    pyLower (pyStrip "banana") ∉ intentLabels ∧
    classify_message (some "banana") = "supply" :=
  ⟨by decide,
    (classify_message_five_labels (some "banana")).2.2 "banana" rfl (by decide)⟩

/-- C2: every item of a successful parse_sale result has price strictly
greater than 0, and a response whose purchased item lacks a price key,
or carries price 0, makes parse_sale fail (return none) rather than
succeed with a defaulted price. -/
theorem parse_sale_price_positive :
    (∀ resp sd, parse_sale resp = some sd → ∀ it ∈ sd.items, 0 < it.price) ∧
    parse_sale (SvcResp.content (some saleNoPriceJson)) = none ∧
    parse_sale (SvcResp.content (some saleZeroPriceJson)) = none := by
  refine ⟨?_, by decide, by decide⟩
  intro resp sd h it hit
  cases resp with
  | exn => simp [parse_sale, saleBody] at h
  | content o =>
    cases o with
    | none => simp [parse_sale, saleBody] at h
    | some j =>
      cases hv : validateSaleData j with
      | none => simp [parse_sale, saleBody, hv] at h
      | some d =>
        simp only [parse_sale, saleBody, hv, Option.some.injEq] at h
        subst h
        exact validateSaleData_price_pos j _ hv it hit

/-- C2 witness: a well-formed sale response parses, and its single
item's price 40 is positive. -/
theorem parse_sale_price_positive_witness :
    parse_sale (SvcResp.content (some saleOkJson)) =
      some ⟨⟨"Анна", none, none, none⟩, [⟨"Топ", "M", 1, 40⟩], none⟩ ∧
    0 < (SaleInfo.mk "Топ" "M" 1 40).price :=
  ⟨by decide,
    parse_sale_price_positive.1 (SvcResp.content (some saleOkJson))
      ⟨⟨"Анна", none, none, none⟩, [⟨"Топ", "M", 1, 40⟩], none⟩ (by decide)
      (SaleInfo.mk "Топ" "M" 1 40) (by decide)⟩

/-- C3 counterexample: a structured response whose items list is empty
validates, so parse_supply succeeds with an empty items list — the
claimed non-emptiness invariant and EmptyResult failure do not hold. -/
theorem parse_supply_empty_items_succeeds :
    parse_supply (SvcResp.content (some supplyEmptyItemsJson)) =
      some ⟨[]⟩ := by
  decide

/-- C3 amended: parse_supply succeeds exactly when the structured
response parses into the SupplyData shape, with no check that the items
list is non-empty: an empty items list yields a success value with no
items, while non-JSON content, a raised call, or a shape violation all
yield the single failure value none. -/
theorem parse_supply_shape_validation_only :
    (∀ j, validateSupplyData j = none →
      parse_supply (SvcResp.content (some j)) = none) ∧
    parse_supply (SvcResp.content (some supplyEmptyItemsJson)) =
      some ⟨[]⟩ ∧
    parse_supply (SvcResp.content none) = none ∧
    parse_supply SvcResp.exn = none := by
  refine ⟨?_, by decide, rfl, rfl⟩
  intro j h
  simp [parse_supply, supplyBody, h]

/-- C3 amended witness: a response that is a bare array is not the
SupplyData shape, and parse_supply returns none on it. -/
theorem parse_supply_shape_validation_only_witness :
    validateSupplyData (JValue.jarr []) = none ∧
    parse_supply (SvcResp.content (some (JValue.jarr []))) = none :=
  ⟨by decide,
    parse_supply_shape_validation_only.1 (JValue.jarr []) (by decide)⟩

/-- C4 counterexample: a structured response holding one zero-quantity
item next to one valid item is rejected wholesale by parse_supply — the
zero-quantity mention is not excluded with the rest kept. -/
theorem parse_supply_zero_quantity_rejects_all :
    parse_supply (SvcResp.content (some supplyZeroQtyJson)) = none := by
  decide

/-- C4 amended: any item with quantity ≤ 0 in the structured response
fails validation of the whole extraction (the zero-quantity filtering is
delegated to the NLU service through the prompt, not performed in code),
and every successful result has all quantities strictly positive. -/
theorem parse_supply_quantity_positive :
    (∀ resp sd, parse_supply resp = some sd →
      ∀ it ∈ sd.items, 0 < it.quantity) ∧
    parse_supply (SvcResp.content (some supplyZeroQtyJson)) = none := by
  refine ⟨?_, by decide⟩
  intro resp sd h it hit
  cases resp with
  | exn => simp [parse_supply, supplyBody] at h
  | content o =>
    cases o with
    | none => simp [parse_supply, supplyBody] at h
    | some j =>
      cases hv : validateSupplyData j with
      | none => simp [parse_supply, supplyBody, hv] at h
      | some d =>
        simp only [parse_supply, supplyBody, hv, Option.some.injEq] at h
        subst h
        exact validateSupplyData_quantity_pos j _ hv it hit

/-- C4 amended witness: a valid supply response parses and its single
item's quantity 3 is positive. -/
theorem parse_supply_quantity_positive_witness :
    parse_supply (SvcResp.content (some supplyOkJson)) =
      some ⟨[⟨"Топ", "M", 3, 10, 5⟩]⟩ ∧
    0 < (SupplyItem.mk "Топ" "M" 3 10 5).quantity :=
  ⟨by decide,
    parse_supply_quantity_positive.1 (SvcResp.content (some supplyOkJson))
      ⟨[⟨"Топ", "M", 3, 10, 5⟩]⟩ (by decide)
      (SupplyItem.mk "Топ" "M" 3 10 5) (by decide)⟩

/-- C5: every error raised inside an extractor body — the service call,
JSON decoding, or model validation — is caught and converted to the
failure value none, and every non-error body outcome is returned as a
validated record: no raw exception escapes any of the four extractors. -/
theorem extractors_never_propagate (resp : SvcResp) :
    (∀ e, supplyBody resp = Except.error e → parse_supply resp = none) ∧
    (∀ d, supplyBody resp = Except.ok d → parse_supply resp = some d) ∧
    (∀ e, saleBody resp = Except.error e → parse_sale resp = none) ∧
    (∀ d, saleBody resp = Except.ok d → parse_sale resp = some d) ∧
    (∀ e, preorderBody resp = Except.error e → parse_preorder resp = none) ∧
    (∀ d, preorderBody resp = Except.ok d → parse_preorder resp = some d) ∧
    (∀ e, clientEditBody resp = Except.error e →
      parse_client_edit resp = none) ∧
    (∀ d, clientEditBody resp = Except.ok d →
      parse_client_edit resp = some d) := by
  refine ⟨?_, ?_, ?_, ?_, ?_, ?_, ?_, ?_⟩ <;> intro x h <;>
    simp [parse_supply, parse_sale, parse_preorder, parse_client_edit, h]

/-- C5 witness: a raised service call surfaces as none from
parse_supply. -/
theorem extractors_never_propagate_witness :
    supplyBody SvcResp.exn = Except.error PyErr.svc ∧
    parse_supply SvcResp.exn = none :=
  ⟨rfl, (extractors_never_propagate SvcResp.exn).1 PyErr.svc rfl⟩

/-- C6 counterexample: a structured response item with negative prices
passes validation, so a successful parse_supply result can carry a
price below 0 — the claimed non-negativity does not hold. -/
theorem parse_supply_negative_price_accepted :
    parse_supply (SvcResp.content (some supplyNegPriceJson)) =
      some ⟨[⟨"Топ", "M", 1, -5, -3⟩]⟩ := by
  decide

/-- C6 amended: sale price and purchase price each default to 0 when
absent from the structured response — both may be 0 simultaneously —
but no non-negativity is enforced: a negative fractional price also
validates. -/
theorem parse_supply_price_defaults :
    parse_supply (SvcResp.content (some supplyNoPriceJson)) =
      some ⟨[⟨"Топ", "M", 2, 0, 0⟩]⟩ ∧
    parse_supply (SvcResp.content (some supplyNegHalfJson)) =
      some ⟨[⟨"Топ", "M", 1, mkRat (-1) 2, 0⟩]⟩ := by
  exact ⟨by decide, by decide⟩

/-- C7 counterexample: a preorder response with an empty items list
validates, so parse_preorder succeeds — it does not fail when the item
list is empty. -/
theorem parse_preorder_empty_items_succeeds :
    parse_preorder (SvcResp.content (some preorderEmptyItemsJson)) =
      some ⟨"Анна", [], none⟩ := by
  decide

/-- C7 amended: parse_preorder takes only the utterance text (its
embedding consumes just the service outcome; no vocabulary input
exists); a response missing the client_name key fails validation, but
an empty client name string and an empty items list both succeed —
there is no EmptyResult check. -/
theorem parse_preorder_name_key_required :
    parse_preorder (SvcResp.content (some preorderNoNameJson)) = none ∧
    parse_preorder (SvcResp.content (some preorderEmptyNameJson)) =
      some ⟨"", [⟨"Купальник", 1, none⟩], none⟩ ∧
    parse_preorder (SvcResp.content (some preorderEmptyItemsJson)) =
      some ⟨"Анна", [], none⟩ := by
  exact ⟨by decide, by decide, by decide⟩

/-- C8 counterexample: a sale response whose client name is the empty
string validates, so a successful parse_sale result can have an empty
client.name. -/
theorem parse_sale_empty_client_name_succeeds :
    parse_sale (SvcResp.content (some saleEmptyNameJson)) =
      some ⟨⟨"", none, none, none⟩, [⟨"Топ", "M", 1, 40⟩], none⟩ := by
  decide

/-- C8 amended: client.name is present in every successful parse_sale
result in the sense that the name key is required — a client object
without it fails validation — but the name may be the empty string:
non-emptiness is not enforced. -/
theorem parse_sale_client_name_key_required :
    parse_sale (SvcResp.content (some saleNoClientNameJson)) = none ∧
    parse_sale (SvcResp.content (some saleEmptyNameJson)) =
      some ⟨⟨"", none, none, none⟩, [⟨"Топ", "M", 1, 40⟩], none⟩ := by
  exact ⟨by decide, by decide⟩

/-- C9: with a fixed deterministic service, each extractor is a
function of its declared arguments alone — equal texts, dates and
vocabularies give structurally identical results. -/
theorem extractors_deterministic
    (svcSupply : String → List String → SvcResp)
    (svcSale : String → String → List String → SvcResp)
    (svcPre svcEdit : String → SvcResp)
    (t1 t2 d1 d2 : String) (v1 v2 : List String)
    (ht : t1 = t2) (hd : d1 = d2) (hv : v1 = v2) :
    parse_supply_run svcSupply t1 v1 = parse_supply_run svcSupply t2 v2 ∧
    parse_sale_run svcSale t1 d1 v1 = parse_sale_run svcSale t2 d2 v2 ∧
    parse_preorder_run svcPre t1 = parse_preorder_run svcPre t2 ∧
    parse_client_edit_run svcEdit t1 = parse_client_edit_run svcEdit t2 := by
  subst ht
  subst hd
  subst hv
  exact ⟨rfl, rfl, rfl, rfl⟩

/-- C9 witness: instantiated on a constant service and concrete equal
arguments. -/
theorem extractors_deterministic_witness :
    parse_sale_run (fun _ _ _ => SvcResp.content (some saleOkJson))
        "Анна купила топ" "2024-01-01" ["Топ"] =
      parse_sale_run (fun _ _ _ => SvcResp.content (some saleOkJson))
        "Анна купила топ" "2024-01-01" ["Топ"] :=
  (extractors_deterministic (fun _ _ => SvcResp.exn)
    (fun _ _ _ => SvcResp.content (some saleOkJson))
    (fun _ => SvcResp.exn) (fun _ => SvcResp.exn)
    "Анна купила топ" "Анна купила топ" "2024-01-01" "2024-01-01"
    ["Топ"] ["Топ"] rfl rfl rfl).2.1

/-- C10: a service reply that is a valid label up to ASCII case and
surrounding whitespace is normalized by strip-then-lower and returned
as that label, not defaulted to "supply". -/
theorem classify_message_normalizes_case_whitespace
    (pre t post lab : String)
    (hpre : ∀ c ∈ pre.data, isPySpace c = true)
    (hpost : ∀ c ∈ post.data, isPySpace c = true)
    (hlow : pyLower t = lab) (hlab : lab ∈ intentLabels) :
    classify_message (some (pre ++ t ++ post)) = lab := by
  have hmap : t.data.map asciiLower = lab.data := by
    have h0 := congrArg String.data hlow
    simpa [pyLower] using h0
  obtain ⟨hne, hns, hcont⟩ := label_facts lab hlab
  have htne : t.data ≠ [] := by
    intro h0
    rw [h0] at hmap
    exact hne hmap.symm
  have hhead : ∀ c cs, t.data = c :: cs → isPySpace c = false := by
    intro c cs hcs
    have hmem : asciiLower c ∈ lab.data := by
      rw [← hmap, hcs, List.map_cons]
      exact List.mem_cons_self _ _
    have h1 := hns _ hmem
    rw [isPySpace_asciiLower] at h1
    exact h1
  have hlast : ∀ c cs, t.data.reverse = c :: cs → isPySpace c = false := by
    intro c cs hcs
    have h2 : t.data.reverse.map asciiLower = lab.data.reverse := by
      rw [List.map_reverse, hmap]
    rw [hcs, List.map_cons] at h2
    have hmem : asciiLower c ∈ lab.data := by
      rw [← List.mem_reverse, ← h2]
      exact List.mem_cons_self _ _
    have h1 := hns _ hmem
    rw [isPySpace_asciiLower] at h1
    exact h1
  have hstrip : pyStrip (pre ++ t ++ post) = t := by
    unfold pyStrip
    rw [str_data_append, str_data_append, List.append_assoc,
      pyStripL_eq_of_padded pre.data t.data post.data hpre hpost hhead hlast
        htne]
  simp only [classify_message]
  rw [hstrip, hlow, if_pos hcont]

/-- C10 witness: the reply " SALE\n" is classified as "sale". -/
theorem classify_message_normalizes_witness :
    pyLower "SALE" = "sale" ∧
    classify_message (some (" " ++ "SALE" ++ "\n")) = "sale" :=
  ⟨by decide,
    classify_message_normalizes_case_whitespace " " "SALE" "\n" "sale"
      (by decide) (by decide) (by decide) (by decide)⟩
